import Mathlib

/-!
# Verification of the quickjs-rs FFI wrapper layer

This development embeds the two C wrapper files of the repository
(`src/libquickjs-sys/embed/static-functions.c` and
`src/libquickjs-sys/static-functions.c`) together with the tagged-value and
reference-count model they surface.  The wrappers are one-line calls into
static inline functions of the vendored engine header `quickjs.h`; that header
is not part of the provided sources, so every underlying inline function is
modelled from the specification (its doc comment starts with
`Modelled from the spec:`), while the wrapper functions themselves are
translated directly from the two C files.
-/

/-- Modelled from the spec: the enumerated type-tag discriminant of a Tagged
Value (spec section 3 and design note on the closed sum over
Integer, Float, Bool, Null, Undefined, Exception, Uninitialized, StringRef,
SymbolRef, ObjectRef, BigIntRef, BigFloatRef, BigDecimalRef).  The concrete
integer encoding used by `quickjs.h` is not in the sources, so tags are kept
abstract. -/
inductive JSTag where
  | int
  | float64
  | bool
  | null
  | undefined
  | exception
  | uninitialized
  | string
  | symbol
  | object
  | bigInt
  | bigFloat
  | bigDecimal
deriving DecidableEq, Repr

/-- Modelled from the spec: the kinds of heap-backed payloads (values tagged
as heap references participate in reference counting, spec section 3). -/
inductive HeapKind where
  | string
  | symbol
  | object
  | bigInt
  | bigFloat
  | bigDecimal
deriving DecidableEq, Repr

/-- The tag carried by a heap reference of a given kind. -/
def HeapKind.tag : HeapKind → JSTag
  | .string => .string
  | .symbol => .symbol
  | .object => .object
  | .bigInt => .bigInt
  | .bigFloat => .bigFloat
  | .bigDecimal => .bigDecimal

/-- Modelled from the spec: a Tagged Value, a fixed-size discriminated union
carrying a type tag plus a payload: 64-bit float (kept as its IEEE-754 bit
pattern, a natural number below 2 ^ 64, so that bit-exactness including the
sign of zero and NaN payload bits is representable), 32-bit signed integer,
boolean, singleton marker, or an opaque heap-object reference (an id into the
Runtime heap). -/
inductive JSValue where
  | mkInt (i : Int)
  | mkFloat (bits : Nat)
  | mkBool (b : Bool)
  | null
  | undefined
  | exception
  | uninitialized
  | ref (k : HeapKind) (id : Nat)
deriving DecidableEq, Repr

/-- The tag of a value, as interpreted through its discriminant. -/
def JSValue.tag : JSValue → JSTag
  | .mkInt _ => .int
  | .mkFloat _ => .float64
  | .mkBool _ => .bool
  | .null => .null
  | .undefined => .undefined
  | .exception => .exception
  | .uninitialized => .uninitialized
  | .ref k _ => k.tag

/-- Whether a value is heap-backed (participates in reference counting). -/
def JSValue.heapBacked : JSValue → Bool
  | .ref _ _ => true
  | _ => false

/-- Modelled from the spec: the record describing a native function binding
registered with the magic calling convention (function pointer, display name,
declared arity, calling-convention enum, and the integer magic
discriminator). -/
structure CFunctionRecord where
  funcPtr : Nat
  name : String
  length : Int
  cproto : Nat
  magic : Int
deriving DecidableEq, Repr

/-- Modelled from the spec: one live heap cell: its reference count, its
property table (Atom id to stored value) and, for native function objects,
the registered binding record. -/
structure HeapCell where
  rc : Nat
  props : List (Nat × JSValue)
  fnInfo : Option CFunctionRecord
deriving DecidableEq, Repr

/-- Modelled from the spec: the Runtime handle: it owns the heap of
reference-counted cells.  `cells` maps an object id to its live cell (`none`
for never-allocated or already-released ids), `freedLog` records every
deallocation (most recent first) so that theorems can observe that no
deallocation happened, and `nextId` is the next fresh allocation id. -/
structure Runtime where
  cells : Nat → Option HeapCell
  freedLog : List Nat
  nextId : Nat

/-- The reference count of a heap cell, 0 when the cell is not live. -/
def Runtime.rcOf (rt : Runtime) (id : Nat) : Nat :=
  ((rt.cells id).map HeapCell.rc).getD 0

/-- Increment the reference count of a live cell, a no-op on a dead id. -/
def Runtime.incRef (rt : Runtime) (id : Nat) : Runtime :=
  { rt with
    cells := fun j =>
      if j = id then (rt.cells id).map (fun c => { c with rc := c.rc + 1 })
      else rt.cells j }

/-- Decrement the reference count of a live cell; on reaching zero the cell
is released and the deallocation is recorded in the freed log.  The spec
marks the transitive release of owned children and deferred cycle collection
as out of scope beyond this trigger point, so they are not modelled. -/
def Runtime.decRef (rt : Runtime) (id : Nat) : Runtime :=
  match rt.cells id with
  | none => rt
  | some c =>
    if c.rc ≤ 1 then
      { rt with
        cells := fun j => if j = id then none else rt.cells j
        freedLog := id :: rt.freedLog }
    else
      { rt with
        cells := fun j =>
          if j = id then some { c with rc := c.rc - 1 } else rt.cells j }

/-- Modelled from the spec: the Execution Context handle.  It borrows the
Runtime, carries the pending-exception state of the excluded exception
subsystem, and carries oracles standing for the excluded engine subsystems:
`coerceU32` is the numeric-coercion algorithm used by convert-to-uint32
(`none` means the coercion raised or the operand was non-coercible), and
`setterFails` and `setUnsupported` are the exotic-behavior decisions of the
excluded object-model subsystem consulted by set-property. -/
structure Context where
  rt : Runtime
  pendingException : Bool
  coerceU32 : JSValue → Option Nat
  setterFails : Nat → Nat → Bool
  setUnsupported : Nat → Nat → Bool

/-! ## Modelled static inline functions of quickjs.h (absent from src/) -/

/-- Modelled from the spec: the raw tag accessor macro JS_VALUE_GET_TAG of
quickjs.h (get-tag exposes the discriminant directly). -/
def JS_VALUE_GET_TAG (v : JSValue) : JSTag := v.tag

/-- Modelled from the spec: the Runtime-scoped Dup of quickjs.h
(JS_DupValueRT): if the value is heap-backed its count is incremented and the
same value is returned unchanged; otherwise the value is returned unchanged
with no side effect. -/
def JS_DupValueRT (rt : Runtime) (v : JSValue) : Runtime × JSValue :=
  match v with
  | .ref _ id => (rt.incRef id, v)
  | _ => (rt, v)

/-- Modelled from the spec: the Context-scoped Dup of quickjs.h
(JS_DupValue), the ordinary-use variant acting through the Context on its
Runtime. -/
def JS_DupValue (ctx : Context) (v : JSValue) : Context × JSValue :=
  let p := JS_DupValueRT ctx.rt v
  ({ ctx with rt := p.1 }, p.2)

/-- Modelled from the spec: the Runtime-scoped Free of quickjs.h
(JS_FreeValueRT): if the value is heap-backed its count is decremented and on
reaching zero the object is released; otherwise a no-op. -/
def JS_FreeValueRT (rt : Runtime) (v : JSValue) : Runtime :=
  match v with
  | .ref _ id => rt.decRef id
  | _ => rt

/-- Modelled from the spec: the Context-scoped Free of quickjs.h
(JS_FreeValue). -/
def JS_FreeValue (ctx : Context) (v : JSValue) : Context :=
  { ctx with rt := JS_FreeValueRT ctx.rt v }

/-- Modelled from the spec: the float constructor JS_NewFloat64 of quickjs.h;
per the constructor contract it returns a Tagged Value with the float tag set
and the raw host value (here its 64-bit IEEE-754 bit pattern) as payload, no
heap allocation performed. -/
def JS_NewFloat64 (_ctx : Context) (d : Nat) : JSValue := JSValue.mkFloat d

/-- Modelled from the spec: the 32-bit integer constructor JS_NewInt32 of
quickjs.h. -/
def JS_NewInt32 (_ctx : Context) (val : Int) : JSValue := JSValue.mkInt val

/-- Modelled from the spec: the boolean constructor JS_NewBool of
quickjs.h. -/
def JS_NewBool (_ctx : Context) (val : Bool) : JSValue := JSValue.mkBool val

/-- Whether a 64-bit IEEE-754 bit pattern is a NaN: exponent field all ones
and non-zero mantissa. -/
def isNaNBits (bits : Nat) : Bool :=
  decide ((bits / 2 ^ 52) % 2 ^ 11 = 2 ^ 11 - 1 ∧ bits % 2 ^ 52 ≠ 0)

/-- Modelled from the spec: the is-NaN predicate JS_VALUE_IS_NAN of
quickjs.h, a bit-pattern test on a value of the float tag (false on any other
tag). -/
def JS_VALUE_IS_NAN (v : JSValue) : Bool :=
  match v with
  | .mkFloat bits => isNaNBits bits
  | _ => false

/-- Modelled from the spec: the raw payload accessor JS_VALUE_GET_FLOAT64 of
quickjs.h; reading the float field of a value of another tag is undefined
behavior enforced by API discipline, modelled by an arbitrary default. -/
def JS_VALUE_GET_FLOAT64 (v : JSValue) : Nat :=
  match v with
  | .mkFloat bits => bits
  | _ => 0

/-- Modelled from the spec: the normalized-tag accessor
JS_VALUE_GET_NORM_TAG of quickjs.h, which collapses configuration-dependent
number sub-representations; at this abstraction level it coincides with the
raw tag. -/
def JS_VALUE_GET_NORM_TAG (v : JSValue) : JSTag := v.tag

/-- Modelled from the spec: classification predicate JS_IsNumber of
quickjs.h (true for the inline number tags: integer and float). -/
def JS_IsNumber (v : JSValue) : Bool :=
  v.tag = JSTag.int ∨ v.tag = JSTag.float64

/-- Modelled from the spec: classification predicate JS_IsBigInt of quickjs.h
(takes a Context because big-integer classification may depend on engine
configuration; at this abstraction level it is the tag test). -/
def JS_IsBigInt (_ctx : Context) (v : JSValue) : Bool := v.tag = JSTag.bigInt

/-- Modelled from the spec: classification predicate JS_IsBigFloat. -/
def JS_IsBigFloat (v : JSValue) : Bool := v.tag = JSTag.bigFloat

/-- Modelled from the spec: classification predicate JS_IsBigDecimal. -/
def JS_IsBigDecimal (v : JSValue) : Bool := v.tag = JSTag.bigDecimal

/-- Modelled from the spec: classification predicate JS_IsBool. -/
def JS_IsBool (v : JSValue) : Bool := v.tag = JSTag.bool

/-- Modelled from the spec: classification predicate JS_IsNull. -/
def JS_IsNull (v : JSValue) : Bool := v.tag = JSTag.null

/-- Modelled from the spec: classification predicate JS_IsUndefined. -/
def JS_IsUndefined (v : JSValue) : Bool := v.tag = JSTag.undefined

/-- Modelled from the spec: classification predicate JS_IsException, which
identifies the singleton exception-occurred sentinel. -/
def JS_IsException (v : JSValue) : Bool := v.tag = JSTag.exception

/-- Modelled from the spec: classification predicate JS_IsUninitialized. -/
def JS_IsUninitialized (v : JSValue) : Bool := v.tag = JSTag.uninitialized

/-- Modelled from the spec: classification predicate JS_IsString. -/
def JS_IsString (v : JSValue) : Bool := v.tag = JSTag.string

/-- Modelled from the spec: classification predicate JS_IsSymbol. -/
def JS_IsSymbol (v : JSValue) : Bool := v.tag = JSTag.symbol

/-- Modelled from the spec: classification predicate JS_IsObject. -/
def JS_IsObject (v : JSValue) : Bool := v.tag = JSTag.object

/-! ## The wrapper file src/libquickjs-sys/embed/static-functions.c -/

/-- Wrapper: int JS_ValueGetTag_real(JSValue v). -/
def JS_ValueGetTag_real (v : JSValue) : JSTag := JS_VALUE_GET_TAG v

/-- Wrapper: void JS_FreeValue_real(JSContext *ctx, JSValue v).  The state
change on the Context is the result. -/
def JS_FreeValue_real (ctx : Context) (v : JSValue) : Context :=
  JS_FreeValue ctx v

/-- Wrapper: void JS_FreeValueRT_real(JSRuntime *rt, JSValue v). -/
def JS_FreeValueRT_real (rt : Runtime) (v : JSValue) : Runtime :=
  JS_FreeValueRT rt v

/-- Wrapper: void JS_DupValue_real(JSContext *ctx, JSValue v).  The C wrapper
has return type void, so the value produced by the underlying Dup is
discarded and only the state change remains. -/
def JS_DupValue_real (ctx : Context) (v : JSValue) : Context :=
  (JS_DupValue ctx v).1

/-- Wrapper: JSValue JS_DupValueRT_real(JSRuntime *rt, JSValueConst v); it
returns the duplicated value, with the Runtime state change alongside. -/
def JS_DupValueRT_real (rt : Runtime) (v : JSValue) : Runtime × JSValue :=
  JS_DupValueRT rt v

/-- Wrapper: JSValue JS_NewFloat64_real(JSContext *ctx, double d). -/
def JS_NewFloat64_real (ctx : Context) (d : Nat) : JSValue :=
  JS_NewFloat64 ctx d

/-- Wrapper: JSValue JS_NewInt32_real(JSContext *ctx, int32_t val). -/
def JS_NewInt32_real (ctx : Context) (val : Int) : JSValue :=
  JS_NewInt32 ctx val

/-- Wrapper: JSValue JS_NewBool_real(JSContext *ctx, JS_BOOL val). -/
def JS_NewBool_real (ctx : Context) (val : Bool) : JSValue :=
  JS_NewBool ctx val

/-- Wrapper: JS_BOOL JS_VALUE_IS_NAN_real(JSValue v). -/
def JS_VALUE_IS_NAN_real (v : JSValue) : Bool := JS_VALUE_IS_NAN v

/-- Wrapper: double JS_VALUE_GET_FLOAT64_real(JSValue v). -/
def JS_VALUE_GET_FLOAT64_real (v : JSValue) : Nat := JS_VALUE_GET_FLOAT64 v

/-- Wrapper: int JS_VALUE_GET_NORM_TAG_real(JSValue v). -/
def JS_VALUE_GET_NORM_TAG_real (v : JSValue) : JSTag :=
  JS_VALUE_GET_NORM_TAG v

/-- Wrapper: JS_BOOL JS_IsNumber_real(JSValueConst v). -/
def JS_IsNumber_real (v : JSValue) : Bool := JS_IsNumber v

/-- Wrapper: JS_BOOL JS_IsBigInt_real(JSContext *ctx, JSValueConst v). -/
def JS_IsBigInt_real (ctx : Context) (v : JSValue) : Bool := JS_IsBigInt ctx v

/-- Wrapper: JS_BOOL JS_IsBigFloat_real(JSValueConst v). -/
def JS_IsBigFloat_real (v : JSValue) : Bool := JS_IsBigFloat v

/-- Wrapper: JS_BOOL JS_IsBigDecimal_real(JSValueConst v). -/
def JS_IsBigDecimal_real (v : JSValue) : Bool := JS_IsBigDecimal v

/-- Wrapper: JS_BOOL JS_IsBool_real(JSValueConst v). -/
def JS_IsBool_real (v : JSValue) : Bool := JS_IsBool v

/-- Wrapper: JS_BOOL JS_IsNull_real(JSValueConst v). -/
def JS_IsNull_real (v : JSValue) : Bool := JS_IsNull v

/-- Wrapper: JS_BOOL JS_IsUndefined_real(JSValueConst v). -/
def JS_IsUndefined_real (v : JSValue) : Bool := JS_IsUndefined v

/-- Wrapper: JS_BOOL JS_IsException_real(JSValueConst v). -/
def JS_IsException_real (v : JSValue) : Bool := JS_IsException v

/-- Wrapper: JS_BOOL JS_IsUninitialized_real(JSValueConst v). -/
def JS_IsUninitialized_real (v : JSValue) : Bool := JS_IsUninitialized v

/-- Wrapper: JS_BOOL JS_IsString_real(JSValueConst v). -/
def JS_IsString_real (v : JSValue) : Bool := JS_IsString v

/-- Wrapper: JS_BOOL JS_IsSymbol_real(JSValueConst v). -/
def JS_IsSymbol_real (v : JSValue) : Bool := JS_IsSymbol v

/-- Wrapper: JS_BOOL JS_IsObject_real(JSValueConst v). -/
def JS_IsObject_real (v : JSValue) : Bool := JS_IsObject v

/-! ## Conversion, property mutation and native function binding -/

/-- Lookup of a property slot in a property table by Atom id. -/
def getSlot (props : List (Nat × JSValue)) (k : Nat) : Option JSValue :=
  (props.find? (fun p => p.1 = k)).map (fun p => p.2)

/-- Store a value in a property table, replacing any previous slot. -/
def setSlot (props : List (Nat × JSValue)) (k : Nat) (v : JSValue) :
    List (Nat × JSValue) :=
  (k, v) :: props.filter (fun p => ¬ p.1 = k)

/-- Modelled from the spec: JS_ToUint32 of quickjs.h (convert-to-uint32).
It runs the numeric-coercion algorithm of the excluded engine core, here the
oracle carried by the Context; on success it writes the 32-bit unsigned
result and returns the success code 0, on failure it returns the failure
code -1, writes nothing, and leaves the diagnostics solely in the pending
exception state of the Context.  The result triple is
(return code, written output, updated Context). -/
def JS_ToUint32 (ctx : Context) (val : JSValue) : Int × Option Nat × Context :=
  match ctx.coerceU32 val with
  | some n => (0, some (n % 2 ^ 32), ctx)
  | none => (-1, none, { ctx with pendingException := true })

/-- A heap cell after a store into one of its property slots. -/
def storeCell (cell : HeapCell) (prop : Nat) (v : JSValue) : HeapCell :=
  { cell with props := setSlot cell.props prop v }

/-- Modelled from the spec: JS_SetProperty of quickjs.h (set-property).
The stored value is consumed by the call in every outcome: on success one
unit of ownership moves into the property table of the target (the old slot,
when present, is released); on failure (the excluded object-model subsystem
reports that the write was rejected, the target is dead, or the target is
not an object) the value is released and an exception is pending; on the
unsupported exotic no-op the value is released.  The result pair is
(tri-state return code: 1 success, 0 unsupported, -1 failure, updated
Context). -/
def JS_SetProperty (ctx : Context) (thisObj : JSValue) (prop : Nat)
    (val : JSValue) : Int × Context :=
  match thisObj with
  | .ref .object tid =>
    match ctx.rt.cells tid with
    | some cell =>
      if ctx.setterFails tid prop then
        (-1, { JS_FreeValue ctx val with pendingException := true })
      else if ctx.setUnsupported tid prop then
        (0, JS_FreeValue ctx val)
      else
        let rt1 : Runtime :=
          { ctx.rt with
            cells := fun j =>
              if j = tid then some (storeCell cell prop val)
              else ctx.rt.cells j }
        let rt2 : Runtime :=
          match getSlot cell.props prop with
          | some old => JS_FreeValueRT rt1 old
          | none => rt1
        (1, { ctx with rt := rt2 })
    | none => (-1, { JS_FreeValue ctx val with pendingException := true })
  | _ => (-1, { JS_FreeValue ctx val with pendingException := true })

/-- Modelled from the spec: JS_NewCFunctionMagic of quickjs.h
(create-function-with-magic).  It allocates a fresh heap-backed function
object holding the host function pointer, display name, declared arity,
calling-convention enum and the integer magic discriminator, returning one
unit of ownership of the new value to the caller. -/
def JS_NewCFunctionMagic (ctx : Context) (func : Nat) (name : String)
    (length : Int) (cproto : Nat) (magic : Int) : Context × JSValue :=
  let id := ctx.rt.nextId
  let cell : HeapCell :=
    { rc := 1
      props := []
      fnInfo := some { funcPtr := func, name := name, length := length
                       cproto := cproto, magic := magic } }
  ({ ctx with
     rt := { ctx.rt with
             cells := fun j => if j = id then some cell else ctx.rt.cells j
             nextId := id + 1 } },
   JSValue.ref .object id)

/-- Modelled from the spec: JS_NewCFunction of quickjs.h (create-function),
the plain variant: no calling-convention enum and magic fixed at 0. -/
def JS_NewCFunction (ctx : Context) (func : Nat) (name : String)
    (length : Int) : Context × JSValue :=
  JS_NewCFunctionMagic ctx func name length 0 0

/-- The observable handed to a host callback at one invocation: which
function pointer is entered, the this-value, the arguments, and the magic
discriminator passed along. -/
structure CallEvent where
  funcPtr : Nat
  thisVal : JSValue
  args : List JSValue
  magic : Int
deriving DecidableEq, Repr

/-- Modelled from the spec: the invocation convention of the excluded
bytecode interpreter for a native function value (spec section 6): calling a
function value enters the registered host function pointer with the
this-value, the argument array, and the magic value stored at registration
threaded through to the callback.  Returns `none` when the callee is not a
live native function object. -/
def invokeNative (rt : Runtime) (fval : JSValue) (thisVal : JSValue)
    (args : List JSValue) : Option CallEvent :=
  match fval with
  | .ref .object id =>
    match rt.cells id with
    | some cell =>
      cell.fnInfo.map (fun r =>
        { funcPtr := r.funcPtr, thisVal := thisVal, args := args
          magic := r.magic })
    | none => none
  | _ => none

/-- Wrapper: int JS_ToUint32_real(JSContext *ctx, uint32_t *pres,
JSValueConst val); the written output stands for the store through pres. -/
def JS_ToUint32_real (ctx : Context) (val : JSValue) :
    Int × Option Nat × Context :=
  JS_ToUint32 ctx val

/-- Wrapper: int JS_SetProperty_real(JSContext *ctx, JSValueConst this_obj,
JSAtom prop, JSValue val). -/
def JS_SetProperty_real (ctx : Context) (thisObj : JSValue) (prop : Nat)
    (val : JSValue) : Int × Context :=
  JS_SetProperty ctx thisObj prop val

/-- Wrapper: JSValue JS_NewCFunction_real(JSContext *ctx, JSCFunction *func,
const char *name, int length). -/
def JS_NewCFunction_real (ctx : Context) (func : Nat) (name : String)
    (length : Int) : Context × JSValue :=
  JS_NewCFunction ctx func name length

/-- Wrapper: JSValue JS_NewCFunctionMagic_real(JSContext *ctx,
JSCFunctionMagic *func, const char *name, int length, JSCFunctionEnum cproto,
int magic). -/
def JS_NewCFunctionMagic_real (ctx : Context) (func : Nat) (name : String)
    (length : Int) (cproto : Nat) (magic : Int) : Context × JSValue :=
  JS_NewCFunctionMagic ctx func name length cproto magic

/-! ## The wrapper file src/libquickjs-sys/static-functions.c

The second wrapper file of the repository defines five of the same wrappers
against the same vendored header; its versions are kept in the `Sys`
namespace. -/

namespace Sys

/-- Wrapper (second file): void JS_FreeValue_real(JSContext *ctx,
JSValue v). -/
def JS_FreeValue_real (ctx : Context) (v : JSValue) : Context :=
  JS_FreeValue ctx v

/-- Wrapper (second file): void JS_DupValue_real(JSContext *ctx,
JSValue v). -/
def JS_DupValue_real (ctx : Context) (v : JSValue) : Context :=
  (JS_DupValue ctx v).1

/-- Wrapper (second file): JSValue JS_NewFloat64_real(JSContext *ctx,
double d). -/
def JS_NewFloat64_real (ctx : Context) (d : Nat) : JSValue :=
  JS_NewFloat64 ctx d

/-- Wrapper (second file): JSValue JS_NewInt32_real(JSContext *ctx,
int32_t val). -/
def JS_NewInt32_real (ctx : Context) (val : Int) : JSValue :=
  JS_NewInt32 ctx val

/-- Wrapper (second file): JSValue JS_NewBool_real(JSContext *ctx,
JS_BOOL val). -/
def JS_NewBool_real (ctx : Context) (val : Bool) : JSValue :=
  JS_NewBool ctx val

end Sys

/-! ## Derived definitions and concrete fixtures -/

/-- The results of the nine classification predicates of the exhaustiveness
property (spec section 8) on one value, in order: is-number, is-bool,
is-null, is-undefined, is-string, is-symbol, is-object, is-exception,
is-uninitialized. -/
def classification (v : JSValue) : List Bool :=
  [JS_IsNumber_real v, JS_IsBool_real v, JS_IsNull_real v,
   JS_IsUndefined_real v, JS_IsString_real v, JS_IsSymbol_real v,
   JS_IsObject_real v, JS_IsException_real v, JS_IsUninitialized_real v]

/-- How many of the nine classification predicates hold of a value. -/
def classificationTrueCount (v : JSValue) : Nat :=
  (classification v).count true

/-- Whether a tag is one of the big-number tags, which have their own
dedicated predicates (is-bigint, is-bigfloat, is-bigdecimal) outside the
nine predicates of the exhaustiveness property. -/
def isBigNumberTag (t : JSTag) : Bool :=
  t = JSTag.bigInt ∨ t = JSTag.bigFloat ∨ t = JSTag.bigDecimal

/-- Concrete fixture: a heap cell holding a single reference. -/
def cellOne : HeapCell := { rc := 1, props := [], fnInfo := none }

/-- Concrete fixture: a runtime with one live object (id 0). -/
def rtOne : Runtime :=
  { cells := fun j => if j = 0 then some cellOne else none
    freedLog := []
    nextId := 1 }

/-- Concrete fixture: a runtime with two live objects (ids 0 and 1). -/
def rtTwo : Runtime :=
  { cells := fun j =>
      if j = 0 then some cellOne else if j = 1 then some cellOne else none
    freedLog := []
    nextId := 2 }

/-- Concrete fixture: a runtime with no live objects. -/
def rtEmpty : Runtime := { cells := fun _ => none, freedLog := [], nextId := 0 }

/-- Concrete fixture: a context over a given runtime whose excluded-subsystem
oracles always report plain behavior (no coercion, no setter failure, no
exotic no-op). -/
def mkCtx (rt : Runtime) : Context :=
  { rt := rt
    pendingException := false
    coerceU32 := fun _ => none
    setterFails := fun _ _ => false
    setUnsupported := fun _ _ => false }

/-- Concrete fixture: context over `rtOne`. -/
def ctxOne : Context := mkCtx rtOne

/-- Concrete fixture: context over `rtTwo`. -/
def ctxTwo : Context := mkCtx rtTwo

/-- Concrete fixture: context over the empty runtime. -/
def ctxEmpty : Context := mkCtx rtEmpty

/-- The ownership contract of set-property at one call, for a heap-backed
stored value `ref vk vid` whose cell held count `vc.rc` before the call:
the result code is tri-state (1 success, 0 unsupported no-op, -1 failure);
on success the stored value sits in the property table of the target and its
count is unchanged (the one consumed unit moved into the object); on any
other outcome its count dropped by exactly one (the consumed unit was
released); on failure an exception is pending.  In every outcome exactly one
unit of ownership of the stored value was consumed, so the caller must never
Free it. -/
def SetPropOutcome (ctx : Context) (thisObj : JSValue) (prop : Nat)
    (vk : HeapKind) (vid : Nat) (vc : HeapCell) : Prop :=
  ((JS_SetProperty_real ctx thisObj prop (JSValue.ref vk vid)).1 = 1 ∨
   (JS_SetProperty_real ctx thisObj prop (JSValue.ref vk vid)).1 = 0 ∨
   (JS_SetProperty_real ctx thisObj prop (JSValue.ref vk vid)).1 = -1) ∧
  ((JS_SetProperty_real ctx thisObj prop (JSValue.ref vk vid)).1 = 1 →
    ((JS_SetProperty_real ctx thisObj prop (JSValue.ref vk vid)).2).rt.rcOf
        vid = vc.rc ∧
    ∃ tid cell₂, thisObj = JSValue.ref HeapKind.object tid ∧
      ((JS_SetProperty_real ctx thisObj prop (JSValue.ref vk vid)).2).rt.cells
          tid = some cell₂ ∧
      getSlot cell₂.props prop = some (JSValue.ref vk vid)) ∧
  (¬ (JS_SetProperty_real ctx thisObj prop (JSValue.ref vk vid)).1 = 1 →
    ((JS_SetProperty_real ctx thisObj prop (JSValue.ref vk vid)).2).rt.rcOf
        vid = vc.rc - 1) ∧
  ((JS_SetProperty_real ctx thisObj prop (JSValue.ref vk vid)).1 = -1 →
    ((JS_SetProperty_real ctx thisObj prop (JSValue.ref vk vid)).2
      ).pendingException = true)

/-! ## Helper lemmas -/

/-- Reading back the slot just stored finds the stored value. -/
lemma getSlot_setSlot (props : List (Nat × JSValue)) (k : Nat) (v : JSValue) :
    getSlot (setSlot props k v) k = some v := by
  simp [getSlot, setSlot]

/-- Decrementing right after incrementing a live cell restores the runtime
exactly: the count returns to its old value, the cell survives, and the freed
log records no deallocation. -/
lemma decRef_incRef (rt : Runtime) (id : Nat) (c : HeapCell)
    (hc : rt.cells id = some c) (_hn : 1 ≤ c.rc) :
    (rt.incRef id).decRef id = rt := by
  have h1 : (rt.incRef id).cells id = some { c with rc := c.rc + 1 } := by
    simp [Runtime.incRef, hc]
  unfold Runtime.decRef
  rw [h1]
  have h2 : ¬ c.rc + 1 ≤ 1 := by omega
  simp only [h2, if_false]
  cases rt with
  | mk cells freedLog nextId =>
    simp only [Runtime.incRef, Runtime.mk.injEq, and_true, true_and]
    funext j
    by_cases hj : j = id
    · subst hj
      simp only [if_pos rfl]
      simp only [Runtime.cells] at hc
      simp [hc]
    · simp [hj]

/-- The reference count observed after a decrement of a live cell. -/
lemma rcOf_decRef (rt : Runtime) (id : Nat) (c : HeapCell)
    (hc : rt.cells id = some c) :
    (rt.decRef id).rcOf id = c.rc - 1 := by
  unfold Runtime.decRef
  rw [hc]
  by_cases h : c.rc ≤ 1
  · simp only [if_pos h]
    simp only [Runtime.rcOf]
    simp
    omega
  · simp only [if_neg h]
    simp [Runtime.rcOf]

/-- Every branch of set-property that releases the stored value and raises
an exception satisfies the ownership contract. -/
lemma set_prop_fail_case (ctx : Context) (thisObj : JSValue) (prop : Nat)
    (vk : HeapKind) (vid : Nat) (vc : HeapCell)
    (hv : ctx.rt.cells vid = some vc)
    (hr : JS_SetProperty_real ctx thisObj prop (JSValue.ref vk vid) =
      (-1, { JS_FreeValue ctx (JSValue.ref vk vid) with
             pendingException := true })) :
    SetPropOutcome ctx thisObj prop vk vid vc := by
  unfold SetPropOutcome
  rw [hr]
  refine ⟨Or.inr (Or.inr rfl), ?_, ?_, ?_⟩
  · intro h
    exact absurd (show (-1 : Int) = 1 from h) (by decide)
  · intro _
    exact rcOf_decRef ctx.rt vid vc hv
  · intro _
    rfl

/-! ## Claim theorems -/

/-- C2: for each primitive constructor (float, 32-bit integer, boolean) and
every host input, get-tag of the constructed value is the tag of that
constructor, and get-float64 recovers the float input bit-exactly; in
particular the negative-zero bit pattern round-trips distinctly from
positive zero, and two NaN bit patterns with different payloads both satisfy
the is-NaN predicate yet round-trip to distinct bit patterns. -/
theorem primitive_constructor_tags_and_float_roundtrip
    (ctx : Context) (d : Nat) (i : Int) (b : Bool) :
    JS_ValueGetTag_real (JS_NewFloat64_real ctx d) = JSTag.float64 ∧
    JS_ValueGetTag_real (JS_NewInt32_real ctx i) = JSTag.int ∧
    JS_ValueGetTag_real (JS_NewBool_real ctx b) = JSTag.bool ∧
    JS_VALUE_GET_FLOAT64_real (JS_NewFloat64_real ctx d) = d ∧
    ¬ JS_VALUE_GET_FLOAT64_real (JS_NewFloat64_real ctx (2 ^ 63)) =
      JS_VALUE_GET_FLOAT64_real (JS_NewFloat64_real ctx 0) ∧
    JS_VALUE_IS_NAN_real (JS_NewFloat64_real ctx 0x7ff8000000000001) = true ∧
    JS_VALUE_IS_NAN_real (JS_NewFloat64_real ctx 0x7ff8000000000002) = true ∧
    ¬ JS_VALUE_GET_FLOAT64_real (JS_NewFloat64_real ctx 0x7ff8000000000001) =
      JS_VALUE_GET_FLOAT64_real (JS_NewFloat64_real ctx 0x7ff8000000000002) :=
  ⟨rfl, rfl, rfl, rfl,
   by show ¬ (2 ^ 63 : Nat) = 0; norm_num,
   rfl, rfl,
   by show ¬ (0x7ff8000000000001 : Nat) = 0x7ff8000000000002; norm_num⟩

/-- C4: for the value built by the 32-bit integer constructor on 42, Dup
followed by two Free calls leaves the Context exactly as it was (each step
is a no-op on the refcount model, and the unchanged freed log shows no
deallocation), and afterwards is-number holds of the value while is-object
does not. -/
theorem int42_dup_double_free_safe (ctx : Context) :
    JS_FreeValue_real
        (JS_FreeValue_real
          (JS_DupValue_real ctx (JS_NewInt32_real ctx 42))
          (JS_NewInt32_real ctx 42))
        (JS_NewInt32_real ctx 42) = ctx ∧
    JS_DupValue_real ctx (JS_NewInt32_real ctx 42) = ctx ∧
    JS_FreeValue_real ctx (JS_NewInt32_real ctx 42) = ctx ∧
    (JS_NewInt32_real ctx 42).heapBacked = false ∧
    JS_IsNumber_real (JS_NewInt32_real ctx 42) = true ∧
    JS_IsObject_real (JS_NewInt32_real ctx 42) = false :=
  ⟨rfl, rfl, rfl, rfl, rfl, rfl⟩

/-- C5 counterexample: the claim that every constructible value satisfies
exactly one of the nine classification predicates fails at a value carrying
the big-integer tag, which satisfies none of them (its classification is
handled by the separate is-bigint predicate). -/
theorem classification_not_exhaustive_on_bigint :
    ¬ classificationTrueCount (JSValue.ref HeapKind.bigInt 0) = 1 := by
  decide

/-- C5 amended: the nine classification predicates are mutually exclusive on
every value, and collectively exhaustive on every value whose tag is not one
of the big-number tags; a value with a big-number tag satisfies none of the
nine (exactly one predicate holds iff the tag is not a big-number tag). -/
theorem classification_count_by_tag (v : JSValue) :
    classificationTrueCount v = if isBigNumberTag v.tag then 0 else 1 := by
  cases v <;> try rfl
  rename_i k id
  cases k <;> rfl

/-- C6: convert-to-uint32 either succeeds, returning the success code 0,
writing a 32-bit unsigned result through the output and leaving the Context
unchanged, or fails, returning the failure code -1, writing nothing, and
recording the diagnosis solely in the pending-exception state of the
Context. -/
theorem to_uint32_contract (ctx : Context) (val : JSValue) :
    ((JS_ToUint32_real ctx val).1 = 0 ∧
      (∃ n, (JS_ToUint32_real ctx val).2.1 = some n ∧ n < 2 ^ 32) ∧
      (JS_ToUint32_real ctx val).2.2 = ctx) ∨
    ((JS_ToUint32_real ctx val).1 = -1 ∧
      (JS_ToUint32_real ctx val).2.1 = none ∧
      ((JS_ToUint32_real ctx val).2.2).pendingException = true) := by
  cases h : ctx.coerceU32 val with
  | some n =>
    left
    refine ⟨?_, ⟨n % 2 ^ 32, ?_, Nat.mod_lt _ (by norm_num)⟩, ?_⟩ <;>
      simp [JS_ToUint32_real, JS_ToUint32, h]
  | none =>
    right
    refine ⟨?_, ?_, ?_⟩ <;> simp [JS_ToUint32_real, JS_ToUint32, h]

/-- C9: the five wrapper functions defined in both C files (Free, Dup, and
the float, int32 and bool constructors) are pairwise behaviorally
equivalent: on every Context and input the version of
src/libquickjs-sys/static-functions.c (namespace Sys) computes the same
result and state change as the version of
src/libquickjs-sys/embed/static-functions.c. -/
theorem wrapper_files_equivalent (ctx : Context) (v : JSValue) (d : Nat)
    (i : Int) (b : Bool) :
    Sys.JS_FreeValue_real ctx v = JS_FreeValue_real ctx v ∧
    Sys.JS_DupValue_real ctx v = JS_DupValue_real ctx v ∧
    Sys.JS_NewFloat64_real ctx d = JS_NewFloat64_real ctx d ∧
    Sys.JS_NewInt32_real ctx i = JS_NewInt32_real ctx i ∧
    Sys.JS_NewBool_real ctx b = JS_NewBool_real ctx b :=
  ⟨rfl, rfl, rfl, rfl, rfl⟩

/-- C10: every value-only classification predicate is a deterministic pure
function of the value alone; in this embedding the predicates take no
Runtime or Context argument at all (matching the C signatures, which receive
only the borrowed value and can reach no mutable state), and their results
depend on nothing but the tag of the value: two values with equal tags
receive identical classifications. -/
theorem predicates_pure_function_of_tag (v w : JSValue) (h : v.tag = w.tag) :
    JS_IsNumber_real v = JS_IsNumber_real w ∧
    JS_IsBigFloat_real v = JS_IsBigFloat_real w ∧
    JS_IsBigDecimal_real v = JS_IsBigDecimal_real w ∧
    JS_IsBool_real v = JS_IsBool_real w ∧
    JS_IsNull_real v = JS_IsNull_real w ∧
    JS_IsUndefined_real v = JS_IsUndefined_real w ∧
    JS_IsException_real v = JS_IsException_real w ∧
    JS_IsUninitialized_real v = JS_IsUninitialized_real w ∧
    JS_IsString_real v = JS_IsString_real w ∧
    JS_IsSymbol_real v = JS_IsSymbol_real w ∧
    JS_IsObject_real v = JS_IsObject_real w := by
  simp only [JS_IsNumber_real, JS_IsNumber, JS_IsBigFloat_real, JS_IsBigFloat,
    JS_IsBigDecimal_real, JS_IsBigDecimal, JS_IsBool_real, JS_IsBool,
    JS_IsNull_real, JS_IsNull, JS_IsUndefined_real, JS_IsUndefined,
    JS_IsException_real, JS_IsException, JS_IsUninitialized_real,
    JS_IsUninitialized, JS_IsString_real, JS_IsString, JS_IsSymbol_real,
    JS_IsSymbol, JS_IsObject_real, JS_IsObject, h]
  simp

/-- C10 witness: two distinct integer values share a tag and receive
identical classifications. -/
theorem predicates_pure_function_of_tag_witness :
    JS_IsNumber_real (JSValue.mkInt 1) = JS_IsNumber_real (JSValue.mkInt 2) ∧
    JS_IsBigFloat_real (JSValue.mkInt 1) = JS_IsBigFloat_real (JSValue.mkInt 2) ∧
    JS_IsBigDecimal_real (JSValue.mkInt 1) = JS_IsBigDecimal_real (JSValue.mkInt 2) ∧
    JS_IsBool_real (JSValue.mkInt 1) = JS_IsBool_real (JSValue.mkInt 2) ∧
    JS_IsNull_real (JSValue.mkInt 1) = JS_IsNull_real (JSValue.mkInt 2) ∧
    JS_IsUndefined_real (JSValue.mkInt 1) = JS_IsUndefined_real (JSValue.mkInt 2) ∧
    JS_IsException_real (JSValue.mkInt 1) = JS_IsException_real (JSValue.mkInt 2) ∧
    JS_IsUninitialized_real (JSValue.mkInt 1) = JS_IsUninitialized_real (JSValue.mkInt 2) ∧
    JS_IsString_real (JSValue.mkInt 1) = JS_IsString_real (JSValue.mkInt 2) ∧
    JS_IsSymbol_real (JSValue.mkInt 1) = JS_IsSymbol_real (JSValue.mkInt 2) ∧
    JS_IsObject_real (JSValue.mkInt 1) = JS_IsObject_real (JSValue.mkInt 2) :=
  predicates_pure_function_of_tag (JSValue.mkInt 1) (JSValue.mkInt 2) rfl

/-- C1: Dup returns the same value unchanged in both variants (the Context
wrapper JS_DupValue_real has return type void in C, so value preservation is
stated on the underlying Context-scoped Dup it calls, alongside the
Runtime-scoped wrapper which does return the value); on a non-heap-backed
value both variants leave all state untouched, and on a heap-backed value
both increment the reference count of exactly that object, leaving every
other cell, the freed log and the pending-exception state unchanged. -/
theorem dup_contract (ctx : Context) (rt : Runtime) (v : JSValue) :
    (JS_DupValueRT_real rt v).2 = v ∧
    (JS_DupValue ctx v).2 = v ∧
    (v.heapBacked = false →
      JS_DupValue_real ctx v = ctx ∧ (JS_DupValueRT_real rt v).1 = rt) ∧
    (∀ k id, v = JSValue.ref k id →
      (∀ c, rt.cells id = some c →
        ((JS_DupValueRT_real rt v).1).cells id =
          some { c with rc := c.rc + 1 }) ∧
      (∀ j, ¬ j = id → ((JS_DupValueRT_real rt v).1).cells j = rt.cells j) ∧
      ((JS_DupValueRT_real rt v).1).freedLog = rt.freedLog ∧
      ((JS_DupValueRT_real rt v).1).nextId = rt.nextId ∧
      (∀ c, ctx.rt.cells id = some c →
        ((JS_DupValue_real ctx v).rt).cells id =
          some { c with rc := c.rc + 1 }) ∧
      (∀ j, ¬ j = id → ((JS_DupValue_real ctx v).rt).cells j = ctx.rt.cells j) ∧
      ((JS_DupValue_real ctx v).rt).freedLog = ctx.rt.freedLog ∧
      (JS_DupValue_real ctx v).pendingException = ctx.pendingException) := by
  cases v with
  | ref k id =>
    refine ⟨rfl, rfl, ?_, ?_⟩
    · intro h
      simp [JSValue.heapBacked] at h
    · intro k' id' h
      cases h
      refine ⟨?_, ?_, rfl, rfl, ?_, ?_, rfl, rfl⟩
      · intro c hc
        simp [JS_DupValueRT_real, JS_DupValueRT, Runtime.incRef, hc]
      · intro j hj
        simp [JS_DupValueRT_real, JS_DupValueRT, Runtime.incRef, hj]
      · intro c hc
        simp [JS_DupValue_real, JS_DupValue, JS_DupValueRT, Runtime.incRef, hc]
      · intro j hj
        simp [JS_DupValue_real, JS_DupValue, JS_DupValueRT, Runtime.incRef, hj]
  | mkInt i =>
    exact ⟨rfl, rfl, fun _ => ⟨rfl, rfl⟩, fun k id h => by simp at h⟩
  | mkFloat bits =>
    exact ⟨rfl, rfl, fun _ => ⟨rfl, rfl⟩, fun k id h => by simp at h⟩
  | mkBool b =>
    exact ⟨rfl, rfl, fun _ => ⟨rfl, rfl⟩, fun k id h => by simp at h⟩
  | null =>
    exact ⟨rfl, rfl, fun _ => ⟨rfl, rfl⟩, fun k id h => by simp at h⟩
  | undefined =>
    exact ⟨rfl, rfl, fun _ => ⟨rfl, rfl⟩, fun k id h => by simp at h⟩
  | exception =>
    exact ⟨rfl, rfl, fun _ => ⟨rfl, rfl⟩, fun k id h => by simp at h⟩
  | uninitialized =>
    exact ⟨rfl, rfl, fun _ => ⟨rfl, rfl⟩, fun k id h => by simp at h⟩

/-- C1 witness: duplicating a live object through each variant on a concrete
one-object runtime raises its count from 1 to 2. -/
theorem dup_contract_witness :
    ((JS_DupValueRT_real rtOne (JSValue.ref HeapKind.object 0)).1).cells 0 =
      some { rc := 2, props := [], fnInfo := none } ∧
    ((JS_DupValue_real ctxOne (JSValue.ref HeapKind.object 0)).rt).cells 0 =
      some { rc := 2, props := [], fnInfo := none } := by
  have h := dup_contract ctxOne rtOne (JSValue.ref HeapKind.object 0)
  have h4 := h.2.2.2 HeapKind.object 0 rfl
  exact ⟨h4.1 cellOne rfl, h4.2.2.2.2.1 cellOne rfl⟩

/-- C3: on a heap-backed value with a live cell of count at least one, Dup
immediately followed by Free restores the Context exactly: the reference
count returns to its previous value and the unchanged freed log shows that
no deallocation took place. -/
theorem dup_free_roundtrip (ctx : Context) (k : HeapKind) (id : Nat)
    (c : HeapCell) (hc : ctx.rt.cells id = some c) (hn : 1 ≤ c.rc) :
    JS_FreeValue_real (JS_DupValue_real ctx (JSValue.ref k id))
      (JSValue.ref k id) = ctx := by
  have step : JS_FreeValue_real (JS_DupValue_real ctx (JSValue.ref k id))
      (JSValue.ref k id) = { ctx with rt := (ctx.rt.incRef id).decRef id } := rfl
  rw [step, decRef_incRef ctx.rt id c hc hn]

/-- C3 witness: on the concrete one-object context the Dup-then-Free round
trip is the identity. -/
theorem dup_free_roundtrip_witness :
    JS_FreeValue_real (JS_DupValue_real ctxOne (JSValue.ref HeapKind.object 0))
      (JSValue.ref HeapKind.object 0) = ctxOne :=
  dup_free_roundtrip ctxOne HeapKind.object 0 cellOne rfl (by decide)

/-- C8: a function value registered through create-function-with-magic with
magic value m delivers exactly m as the magic argument of every invocation:
in any later runtime state in which the registered function object is
unchanged, invoking the returned value enters the registered host function
pointer with the registered magic discriminator, the given this-value and
the given arguments. -/
theorem cfunction_magic_roundtrip (ctx : Context) (func : Nat) (name : String)
    (length : Int) (cproto : Nat) (m : Int) (thisVal : JSValue)
    (args : List JSValue) (rt' : Runtime)
    (hpreserved : rt'.cells ctx.rt.nextId =
      ((JS_NewCFunctionMagic_real ctx func name length cproto m).1).rt.cells
        ctx.rt.nextId) :
    invokeNative rt'
        ((JS_NewCFunctionMagic_real ctx func name length cproto m).2)
        thisVal args =
      some { funcPtr := func, thisVal := thisVal, args := args, magic := m } := by
  have hcell : rt'.cells ctx.rt.nextId =
      some { rc := 1
             props := []
             fnInfo := some { funcPtr := func, name := name, length := length
                              cproto := cproto, magic := m } } := by
    rw [hpreserved]
    simp [JS_NewCFunctionMagic_real, JS_NewCFunctionMagic]
  show invokeNative rt' (JSValue.ref HeapKind.object ctx.rt.nextId)
      thisVal args = _
  simp [invokeNative, hcell]

/-- C8 witness: registering the host function pointer 5 with magic 0 and with
magic 1 on a concrete empty context and invoking each returned value hands
the callback exactly the registered magic value. -/
theorem cfunction_magic_roundtrip_witness :
    invokeNative ((JS_NewCFunctionMagic_real ctxEmpty 5 "f" 2 0 0).1).rt
        ((JS_NewCFunctionMagic_real ctxEmpty 5 "f" 2 0 0).2)
        JSValue.undefined [] =
      some { funcPtr := 5, thisVal := JSValue.undefined, args := []
             magic := 0 } ∧
    invokeNative ((JS_NewCFunctionMagic_real ctxEmpty 5 "f" 2 0 1).1).rt
        ((JS_NewCFunctionMagic_real ctxEmpty 5 "f" 2 0 1).2)
        JSValue.undefined [] =
      some { funcPtr := 5, thisVal := JSValue.undefined, args := []
             magic := 1 } :=
  ⟨cfunction_magic_roundtrip ctxEmpty 5 "f" 2 0 0 JSValue.undefined [] _ rfl,
   cfunction_magic_roundtrip ctxEmpty 5 "f" 2 0 1 JSValue.undefined [] _ rfl⟩

/-- C7: every call of set-property consumes exactly one unit of ownership of
the stored heap-backed value whatever the outcome, and the result is
tri-state: on success (code 1) the stored value appears in the property
table of the target with its reference count unchanged (the consumed unit
moved into the object), on the unsupported exotic no-op (code 0) and on
failure (code -1) the count drops by exactly one (the consumed unit was
released), with an exception pending on failure; the caller must never Free
the value itself.  The freshness hypothesis keeps the released previous
slot, when the target already held one, out of the accounting. -/
theorem set_property_consumes_one_reference
    (ctx : Context) (thisObj : JSValue) (prop : Nat)
    (vk : HeapKind) (vid : Nat) (vc : HeapCell)
    (hv : ctx.rt.cells vid = some vc) (_hrc : 1 ≤ vc.rc)
    (hfresh : ∀ tid cell, thisObj = JSValue.ref HeapKind.object tid →
      ctx.rt.cells tid = some cell → getSlot cell.props prop = none) :
    SetPropOutcome ctx thisObj prop vk vid vc := by
  cases thisObj with
  | ref k tid =>
    cases k with
    | object =>
      cases hcell : ctx.rt.cells tid with
      | none =>
        exact set_prop_fail_case ctx _ prop vk vid vc hv
          (by simp [JS_SetProperty_real, JS_SetProperty, hcell])
      | some cell =>
        by_cases hsf : ctx.setterFails tid prop
        · exact set_prop_fail_case ctx _ prop vk vid vc hv
            (by simp [JS_SetProperty_real, JS_SetProperty, hcell, hsf])
        · by_cases hsu : ctx.setUnsupported tid prop
          · have hr : JS_SetProperty_real ctx (JSValue.ref HeapKind.object tid)
                prop (JSValue.ref vk vid) =
                (0, JS_FreeValue ctx (JSValue.ref vk vid)) := by
              simp [JS_SetProperty_real, JS_SetProperty, hcell, hsf, hsu]
            unfold SetPropOutcome
            rw [hr]
            refine ⟨Or.inr (Or.inl rfl), ?_, ?_, ?_⟩
            · intro h
              exact absurd (show (0 : Int) = 1 from h) (by decide)
            · intro _
              exact rcOf_decRef ctx.rt vid vc hv
            · intro h
              exact absurd (show (0 : Int) = -1 from h) (by decide)
          · have hfr : getSlot cell.props prop = none :=
              hfresh tid cell rfl hcell
            have hr : JS_SetProperty_real ctx (JSValue.ref HeapKind.object tid)
                prop (JSValue.ref vk vid) =
                (1, { ctx with rt :=
                  { ctx.rt with cells := fun j =>
                      if j = tid then some (storeCell cell prop (JSValue.ref vk vid))
                      else ctx.rt.cells j } }) := by
              simp [JS_SetProperty_real, JS_SetProperty, hcell, hsf, hsu, hfr]
            unfold SetPropOutcome
            rw [hr]
            refine ⟨Or.inl rfl, ?_, ?_, ?_⟩
            · intro _
              constructor
              · by_cases hvt : vid = tid
                · subst hvt
                  rw [hcell] at hv
                  have hceq : cell = vc := Option.some.inj hv
                  simp [Runtime.rcOf, storeCell, hceq]
                · simp [Runtime.rcOf, hvt, hv]
              · refine ⟨tid, storeCell cell prop (JSValue.ref vk vid),
                  rfl, ?_, ?_⟩
                · simp
                · show getSlot (setSlot cell.props prop (JSValue.ref vk vid))
                      prop = some (JSValue.ref vk vid)
                  exact getSlot_setSlot cell.props prop (JSValue.ref vk vid)
            · intro h
              exact absurd rfl h
            · intro h
              exact absurd (show (1 : Int) = -1 from h) (by decide)
    | string =>
      exact set_prop_fail_case ctx _ prop vk vid vc hv
        (by simp [JS_SetProperty_real, JS_SetProperty])
    | symbol =>
      exact set_prop_fail_case ctx _ prop vk vid vc hv
        (by simp [JS_SetProperty_real, JS_SetProperty])
    | bigInt =>
      exact set_prop_fail_case ctx _ prop vk vid vc hv
        (by simp [JS_SetProperty_real, JS_SetProperty])
    | bigFloat =>
      exact set_prop_fail_case ctx _ prop vk vid vc hv
        (by simp [JS_SetProperty_real, JS_SetProperty])
    | bigDecimal =>
      exact set_prop_fail_case ctx _ prop vk vid vc hv
        (by simp [JS_SetProperty_real, JS_SetProperty])
  | mkInt i =>
    exact set_prop_fail_case ctx _ prop vk vid vc hv
      (by simp [JS_SetProperty_real, JS_SetProperty])
  | mkFloat bits =>
    exact set_prop_fail_case ctx _ prop vk vid vc hv
      (by simp [JS_SetProperty_real, JS_SetProperty])
  | mkBool b =>
    exact set_prop_fail_case ctx _ prop vk vid vc hv
      (by simp [JS_SetProperty_real, JS_SetProperty])
  | null =>
    exact set_prop_fail_case ctx _ prop vk vid vc hv
      (by simp [JS_SetProperty_real, JS_SetProperty])
  | undefined =>
    exact set_prop_fail_case ctx _ prop vk vid vc hv
      (by simp [JS_SetProperty_real, JS_SetProperty])
  | exception =>
    exact set_prop_fail_case ctx _ prop vk vid vc hv
      (by simp [JS_SetProperty_real, JS_SetProperty])
  | uninitialized =>
    exact set_prop_fail_case ctx _ prop vk vid vc hv
      (by simp [JS_SetProperty_real, JS_SetProperty])

/-- C7 witness: on a concrete two-object context, storing object 1 under a
fresh key of object 0 succeeds, leaves the count of object 1 at 1, and the
slot holds the stored value. -/
theorem set_property_consumes_one_reference_witness :
    ctxTwo.rt.cells 1 = some cellOne ∧
    SetPropOutcome ctxTwo (JSValue.ref HeapKind.object 0) 7 HeapKind.object 1
      cellOne :=
  ⟨rfl,
   set_property_consumes_one_reference ctxTwo (JSValue.ref HeapKind.object 0)
     7 HeapKind.object 1 cellOne rfl (by decide)
     (fun tid cell ht hc => by
       cases ht
       have hc2 : (some cellOne : Option HeapCell) = some cell := hc
       injection hc2 with h
       subst h
       rfl)⟩

/-- C2 witness: the constructor-tag and round-trip facts instantiated at the
concrete inputs 1, 1 and true on the concrete empty context. -/
theorem primitive_constructor_tags_and_float_roundtrip_witness :
    JS_ValueGetTag_real (JS_NewFloat64_real ctxEmpty 1) = JSTag.float64 ∧
    JS_ValueGetTag_real (JS_NewInt32_real ctxEmpty 1) = JSTag.int ∧
    JS_ValueGetTag_real (JS_NewBool_real ctxEmpty true) = JSTag.bool ∧
    JS_VALUE_GET_FLOAT64_real (JS_NewFloat64_real ctxEmpty 1) = 1 ∧
    ¬ JS_VALUE_GET_FLOAT64_real (JS_NewFloat64_real ctxEmpty (2 ^ 63)) =
      JS_VALUE_GET_FLOAT64_real (JS_NewFloat64_real ctxEmpty 0) ∧
    JS_VALUE_IS_NAN_real (JS_NewFloat64_real ctxEmpty 0x7ff8000000000001) =
      true ∧
    JS_VALUE_IS_NAN_real (JS_NewFloat64_real ctxEmpty 0x7ff8000000000002) =
      true ∧
    ¬ JS_VALUE_GET_FLOAT64_real (JS_NewFloat64_real ctxEmpty
        0x7ff8000000000001) =
      JS_VALUE_GET_FLOAT64_real (JS_NewFloat64_real ctxEmpty
        0x7ff8000000000002) :=
  primitive_constructor_tags_and_float_roundtrip ctxEmpty 1 1 true
